import Mathlib

/-!
Verification of the publish-candidate pipeline of the News_bot repository
(`src/api/twitter_bot.js`): image validation, best-article selection, tweet
composition and the publish action.

JavaScript strings are modelled as `List Char` (`Str`); `.length` is the
character count.  Machine/network effects (the WHATWG URL parser, axios
HEAD/GET requests, the Twitter media-upload and tweet endpoints) are
modelled as explicit oracle arguments; everything written in the repository
itself is translated directly from the source.
-/

/-- JavaScript strings, modelled as lists of characters. -/
abbrev Str := List Char

/-- Conversion from Lean string literals. -/
def str (s : String) : Str := s.data

/-- JavaScript whitespace (`\s` and the set trimmed by `String.prototype.trim`),
restricted to the characters that can realistically occur in the data:
space, tab, LF, VT, FF, CR, NBSP. -/
def isJsWs (c : Char) : Bool :=
  c = ' ' || c = '\t' || c = '\n' || c = '\x0b' || c = '\x0c' || c = '\r' || c.toNat = 0xA0

/-- JavaScript line terminators (not matched by `.` in a regex). -/
def isLineTerm (c : Char) : Bool :=
  c = '\n' || c = '\r' || c.toNat = 0x2028 || c.toNat = 0x2029

/-- `String.prototype.trim()`. -/
def jsTrim (l : Str) : Str :=
  ((l.dropWhile isJsWs).reverse.dropWhile isJsWs).reverse

/-- `String.prototype.toLowerCase()` (ASCII range, which is all the
hashtag keyword patterns use). -/
def jsToLower (l : Str) : Str := l.map Char.toLower

/-- `String.prototype.includes(n)` / regex test for a literal substring. -/
def containsSub (h n : Str) : Bool :=
  if n.isPrefixOf h then true
  else
    match h with
    | [] => false
    | _ :: t => containsSub t n

/-- Length of `dropWhile` never exceeds the input length. -/
theorem length_dropWhile_le (p : Char → Bool) (l : Str) :
    (l.dropWhile p).length ≤ l.length := by
  induction l with
  | nil => simp [List.dropWhile]
  | cons c t ih =>
    by_cases h : p c
    · simp only [List.dropWhile, h, List.length_cons]
      exact Nat.le_succ_of_le ih
    · simp [List.dropWhile, h]

/-- `jsTrim` never lengthens a string. -/
theorem jsTrim_length_le (l : Str) : (jsTrim l).length ≤ l.length := by
  unfold jsTrim
  have h1 := length_dropWhile_le isJsWs l
  have h2 := length_dropWhile_le isJsWs (l.dropWhile isJsWs).reverse
  simp only [List.length_reverse] at *
  omega

-- ## Image validator (`validateAndTestImage`, src/api/twitter_bot.js:118-245)

/-- A JavaScript error value as the code inspects it: `message`,
`response?.status` (axios), `code`, `type`, and the `data` / `errors`
payloads (kept opaque as their JSON text, since the code only logs them or
copies them into the returned diagnostic). -/
structure JsError where
  message : Str
  httpStatus : Option Nat
  code : Option Str
  etype : Option Str
  dataJson : Option Str
  errorsJson : Option Str
deriving DecidableEq, Repr

/-- Headers of a successful HEAD probe: raw `content-type` and
`content-length` header values (absent headers are `none`). -/
structure HeadInfo where
  contentType : Option Str
  contentLength : Option Str
deriving DecidableEq, Repr

/-- A successful GET transfer: the downloaded bytes and the response
`content-type` header. -/
structure GetInfo where
  data : List Nat
  contentType : Option Str
deriving DecidableEq, Repr

/-- Result of `validateAndTestImage`:
`{valid:true, buffer, size, contentType}` or `{valid:false, reason, httpStatus?}`. -/
inductive ValidationResult where
  | ok (buffer : List Nat) (size : Nat) (contentType : Option Str)
  | bad (reason : Str) (httpStatus : Option Nat)
deriving DecidableEq, Repr

/-- `validation.valid` flag. -/
def ValidationResult.isValid : ValidationResult → Bool
  | .ok _ _ _ => true
  | .bad _ _ => false

/-- The `problematicPatterns` pre-filter of step 2: `/example\.com/i`,
`/placeholder/i`, `/dummy/i`, `/test\.jpg/i`, `/\.(svg)$/i`. -/
def problematicUrl (url : Str) : Bool :=
  let l := jsToLower url
  containsSub l (str "example.com") || containsSub l (str "placeholder") ||
  containsSub l (str "dummy") || containsSub l (str "test.jpg") ||
  (str ".svg").isSuffixOf l

/-- Numeric value of a decimal/hex digit, if `c` is one for base `b`. -/
def digitVal (b : Nat) (c : Char) : Option Nat :=
  if '0' ≤ c ∧ c ≤ '9' then some (c.toNat - 48)
  else if b = 16 ∧ 'a' ≤ c ∧ c ≤ 'f' then some (c.toNat - 87)
  else if b = 16 ∧ 'A' ≤ c ∧ c ≤ 'F' then some (c.toNat - 55)
  else none

/-- `parseInt(s) || 0` as the code applies it to the `content-length`
header: skip leading whitespace, optional sign, optional `0x`/`0X` hex
marker, then the maximal run of digits; no digits (or an absent header,
`parseInt(undefined)`) gives `NaN`, which `|| 0` turns into `0`. -/
def jsParseIntOr0 (s : Option Str) : Int :=
  match s with
  | none => 0
  | some l =>
    let l1 := l.dropWhile isJsWs
    let signed : Int × Str :=
      match l1 with
      | '-' :: r => (-1, r)
      | '+' :: r => (1, r)
      | _ => (1, l1)
    let based : Nat × Str :=
      if (str "0x").isPrefixOf signed.2 ∨ (str "0X").isPrefixOf signed.2 then
        (16, signed.2.drop 2)
      else (10, signed.2)
    let ds := based.2.takeWhile (fun c => (digitVal based.1 c).isSome)
    if ds = [] then 0
    else signed.1 * (ds.foldl (fun acc c => acc * based.1 + ((digitVal based.1 c).getD 0)) 0 : Nat)

/-- `(x / (1024*1024)).toFixed(2)` rendered as a decimal string (idealized
fixed-point rounding; only ever used inside a log/reason message that no
claim depends on). -/
def fmtFixed2 (num den : Nat) : Str :=
  let hundredths := (num * 200 + den) / (den * 2)
  str (toString (hundredths / 100)) ++ ['.'] ++
    (if hundredths % 100 < 10 then ['0'] else []) ++ str (toString (hundredths % 100))

/-- Step 7 of `validateAndTestImage`: the magic-byte check on
`buffer.slice(0, 12)` (JPEG / PNG / GIF / WebP); indexing past the end of
the buffer yields `undefined`, which equals no byte. -/
def magicOk (b : List Nat) : Bool :=
  let m := b.take 12
  (m.get? 0 == some 0xFF && m.get? 1 == some 0xD8 && m.get? 2 == some 0xFF) ||
  (m.get? 0 == some 0x89 && m.get? 1 == some 0x50 && m.get? 2 == some 0x4E && m.get? 3 == some 0x47) ||
  (m.get? 0 == some 0x47 && m.get? 1 == some 0x49 && m.get? 2 == some 0x46) ||
  (m.get? 8 == some 0x57 && m.get? 9 == some 0x45 && m.get? 10 == some 0x42 && m.get? 11 == some 0x50)

/-- Steps 6-7 of `validateAndTestImage`: the GET transfer, the emptiness
check and the magic-byte check (a failed transfer falls into the outer
`catch`, which returns `{valid:false, reason: error.message, httpStatus}`). -/
def fetchStage (get : Except JsError GetInfo) : ValidationResult :=
  match get with
  | .error e => .bad e.message e.httpStatus
  | .ok g =>
    if g.data.length = 0 then .bad (str "Downloaded image is empty") none
    else if magicOk g.data then .ok g.data g.data.length g.contentType
    else .bad (str "Not a valid image file") none

/-- Step 4 of `validateAndTestImage`: `if (contentType)` (an absent or empty
header is falsy) followed by `!contentType.startsWith('image/')`. -/
def contentTypeGate (ct : Option Str) : Bool :=
  match ct with
  | some t => t != [] && !((str "image/").isPrefixOf t)
  | none => false

/-- Step 5, first branch: `contentLength > 0 && contentLength < 1000`
(`contentLength` is undefined when the HEAD probe failed, and
`undefined > 0` is false). -/
def sizeTooSmallGate (cl : Option Int) : Bool :=
  match cl with
  | some v => decide (0 < v) && decide (v < 1000)
  | none => false

/-- Step 5, second branch: `contentLength > 0 && contentLength > 5*1024*1024`. -/
def sizeTooLargeGate (cl : Option Int) : Bool :=
  match cl with
  | some v => decide (0 < v) && decide (5 * 1024 * 1024 < v)
  | none => false

/-- `validateAndTestImage(url)` (src/api/twitter_bot.js:118-245).
`urlParses` is the outcome of the host URL parser (`new URL(url)`), and
`head` / `get` are the outcomes the network would give the axios HEAD and
GET requests (`Except.error` = the request threw / had status ≥ 400). -/
def validateAndTestImage (urlParses : Bool) (url : Str)
    (head : Except JsError HeadInfo) (get : Except JsError GetInfo) : ValidationResult :=
  if ¬ urlParses then .bad (str "Invalid URL format") none
  else if problematicUrl url then .bad (str "Problematic URL pattern") none
  else
    -- step 3: `contentType` / `contentLength` stay undefined when HEAD throws
    let ct : Option Str := match head with | .ok h => h.contentType | .error _ => none
    let cl : Option Int := match head with
      | .ok h => some (jsParseIntOr0 h.contentLength)
      | .error _ => none
    if contentTypeGate ct then
      .bad (str "Invalid content type: " ++ ct.getD []) none
    else if sizeTooSmallGate cl then
      .bad (str "Image too small (likely broken)") none
    else if sizeTooLargeGate cl then
      .bad (str "Image too large: " ++ fmtFixed2 (cl.getD 0).toNat (1024 * 1024) ++ str " MB") none
    else fetchStage get

-- ## Claims C1, C2, C8 — image validator

/-- A buffer matching one of the four signatures is nonempty (even the WebP
check needs a byte at index 11). -/
theorem magicOk_length_pos (b : List Nat) (h : magicOk b = true) : b.length ≠ 0 := by
  intro hlen
  rw [List.length_eq_zero] at hlen
  subst hlen
  simp [magicOk] at h

/-- The content-type gate of step 4 is skipped when the header is absent,
empty, or declares an `image/` type. -/
theorem contentTypeGate_eq_false (ct : Option Str)
    (hct : ct = none ∨ ct = some [] ∨
        ∃ t, ct = some t ∧ (str "image/").isPrefixOf t = true) :
    contentTypeGate ct = false := by
  rcases hct with h1 | h1 | ⟨t, ht, himg⟩
  · simp [h1, contentTypeGate]
  · simp [h1, contentTypeGate]
  · subst ht
    simp [contentTypeGate, himg]

/-- The size-floor gate of step 5 is skipped when the parsed content-length is
non-positive or at least 1000. -/
theorem sizeTooSmallGate_eq_false (v : Int) (hv : v ≤ 0 ∨ 1000 ≤ v) :
    sizeTooSmallGate (some v) = false := by
  rcases hv with h1 | h1 <;> simp [sizeTooSmallGate] <;> omega

/-- The size-ceiling gate of step 5 is skipped when the parsed content-length
is non-positive or at most 5 MiB. -/
theorem sizeTooLargeGate_eq_false (v : Int) (hv : v ≤ 0 ∨ v ≤ 5 * 1024 * 1024) :
    sizeTooLargeGate (some v) = false := by
  rcases hv with h1 | h1 <;> simp [sizeTooLargeGate] <;> omega

/-- A 500-byte payload beginning with the JPEG signature. -/
def smallJpeg : List Nat := 0xFF :: 0xD8 :: 0xFF :: List.replicate 497 0

/-- C1 counterexample: the origin declares `text/html` on a successful HEAD
probe while the fetched body carries the JPEG signature; `validateAndTestImage`
rejects with an invalid-content-type reason instead of returning `valid:true`,
so the declared content-type is not advisory-only. -/
theorem claim_C1_counterexample :
    magicOk [0xFF, 0xD8, 0xFF, 0xE0] = true ∧
    validateAndTestImage true (str "http://a/b.png")
        (.ok ⟨some (str "text/html"), none⟩)
        (.ok ⟨[0xFF, 0xD8, 0xFF, 0xE0], some (str "text/html")⟩) =
      .bad (str "Invalid content type: text/html") none := by
  constructor
  · decide
  · decide

/-- C1 (amended): when the download carries a supported image signature,
`validateAndTestImage` returns `valid:true` with the buffer attached —
provided the URL passes the syntactic and pattern pre-filters and a
successful HEAD probe did not declare a non-image content-type or an
out-of-range positive content-length; a non-image content-type declared by
a successful HEAD rejects the URL before the body is consulted. -/
theorem claim_C1_amended (url : Str) (head : Except JsError HeadInfo) (g : GetInfo)
    (hpat : problematicUrl url = false)
    (hct : match head with
      | .ok h => h.contentType = none ∨ h.contentType = some [] ∨
          ∃ t, h.contentType = some t ∧ (str "image/").isPrefixOf t = true
      | .error _ => True)
    (hcl : match head with
      | .ok h => jsParseIntOr0 h.contentLength ≤ 0 ∨
          (1000 ≤ jsParseIntOr0 h.contentLength ∧
            jsParseIntOr0 h.contentLength ≤ 5 * 1024 * 1024)
      | .error _ => True)
    (hmagic : magicOk g.data = true) :
    validateAndTestImage true url head (.ok g) = .ok g.data g.data.length g.contentType := by
  have hne := magicOk_length_pos g.data hmagic
  cases head with
  | error e =>
    simp [validateAndTestImage, fetchStage, hpat, hmagic, hne,
      contentTypeGate, sizeTooSmallGate, sizeTooLargeGate]
  | ok h =>
    have hctFalse := contentTypeGate_eq_false h.contentType hct
    have hsmall := sizeTooSmallGate_eq_false (jsParseIntOr0 h.contentLength)
      (by rcases hcl with h1 | ⟨h1, h2⟩
          · exact Or.inl h1
          · exact Or.inr h1)
    have hlarge := sizeTooLargeGate_eq_false (jsParseIntOr0 h.contentLength)
      (by rcases hcl with h1 | ⟨h1, h2⟩
          · exact Or.inl h1
          · exact Or.inr h2)
    simp [validateAndTestImage, fetchStage, hpat, hctFalse, hsmall, hlarge, hmagic, hne]

/-- C1 witness: a JPEG body fetched from an origin whose HEAD probe declared
`image/jpeg` and a 2000-byte content-length validates successfully. -/
theorem claim_C1_witness :
    validateAndTestImage true (str "http://a/b.png")
        (.ok ⟨some (str "image/jpeg"), some (str "2000")⟩)
        (.ok ⟨[0xFF, 0xD8, 0xFF, 0xE0], some (str "image/jpeg")⟩) =
      .ok [0xFF, 0xD8, 0xFF, 0xE0] 4 (some (str "image/jpeg")) :=
  claim_C1_amended (str "http://a/b.png")
    (.ok ⟨some (str "image/jpeg"), some (str "2000")⟩)
    ⟨[0xFF, 0xD8, 0xFF, 0xE0], some (str "image/jpeg")⟩
    (by decide)
    (Or.inr (Or.inr ⟨str "image/jpeg", rfl, by decide⟩))
    (Or.inr (by constructor <;> decide))
    (by decide)

set_option maxRecDepth 4000 in
/-- C2 counterexample: a 500-byte JPEG payload downloaded after a failed HEAD
probe (so no advertised content-length) validates successfully even though
the actual bytes received number at most 1000 — the size floor is not
enforced on the received bytes. -/
theorem claim_C2_counterexample :
    smallJpeg.length = 500 ∧
    validateAndTestImage true (str "http://a/b.png")
        (.error ⟨str "HEAD failed", none, none, none, none, none⟩)
        (.ok ⟨smallJpeg, none⟩) =
      .ok smallJpeg 500 none := by
  constructor
  · decide
  · decide

/-- C2 (amended): the >1000-byte size floor is enforced only on the
content-length advertised by a successful HEAD probe: when the parsed header
value is strictly between 0 and 1000, `validateAndTestImage` rejects with the
size-related reason "Image too small (likely broken)" (without consulting the
body); the downloaded bytes themselves are rejected only when empty. -/
theorem claim_C2_amended (url : Str) (h : HeadInfo) (get : Except JsError GetInfo)
    (hpat : problematicUrl url = false)
    (hct : h.contentType = none ∨ h.contentType = some [] ∨
        ∃ t, h.contentType = some t ∧ (str "image/").isPrefixOf t = true)
    (hv1 : 0 < jsParseIntOr0 h.contentLength)
    (hv2 : jsParseIntOr0 h.contentLength < 1000) :
    validateAndTestImage true url (.ok h) get =
      .bad (str "Image too small (likely broken)") none := by
  have hctFalse := contentTypeGate_eq_false h.contentType hct
  have hsmall : sizeTooSmallGate (some (jsParseIntOr0 h.contentLength)) = true := by
    simp [sizeTooSmallGate]
    omega
  simp [validateAndTestImage, hpat, hctFalse, hsmall]

/-- C2 witness: a HEAD probe advertising `content-length: 500` is rejected as
too small, whatever the transfer would have produced. -/
theorem claim_C2_witness :
    validateAndTestImage true (str "http://a/b.png")
        (.ok ⟨some (str "image/jpeg"), some (str "500")⟩)
        (.ok ⟨smallJpeg, none⟩) =
      .bad (str "Image too small (likely broken)") none :=
  claim_C2_amended (str "http://a/b.png") ⟨some (str "image/jpeg"), some (str "500")⟩
    (.ok ⟨smallJpeg, none⟩) (by decide)
    (Or.inr (Or.inr ⟨str "image/jpeg", rfl, by decide⟩))
    (by decide) (by decide)

/-- C8: when the HEAD probe throws, validation still proceeds to the full GET
transfer, and the overall result is exactly `fetchStage get` — decided only by
the transfer outcome, the emptiness check and the byte-signature check,
independent of the probe's error. -/
theorem claim_C8 (url : Str) (e : JsError) (get : Except JsError GetInfo)
    (hpat : problematicUrl url = false) :
    validateAndTestImage true url (.error e) get = fetchStage get := by
  simp [validateAndTestImage, hpat, contentTypeGate, sizeTooSmallGate, sizeTooLargeGate]

/-- C8 witness: a failed HEAD followed by a successful JPEG transfer still
reaches the GET stage and validates. -/
theorem claim_C8_witness :
    validateAndTestImage true (str "http://a/b.png")
        (.error ⟨str "Request failed with status code 403", some 403, none, none, none, none⟩)
        (.ok ⟨[0xFF, 0xD8, 0xFF, 0xE0], none⟩) =
      fetchStage (.ok ⟨[0xFF, 0xD8, 0xFF, 0xE0], none⟩) :=
  claim_C8 (str "http://a/b.png")
    ⟨str "Request failed with status code 403", some 403, none, none, none, none⟩
    (.ok ⟨[0xFF, 0xD8, 0xFF, 0xE0], none⟩) (by decide)

-- ## Data model: articles (src/api/twitter_bot.js passim)

/-- The `_validatedImage` cache attached to an article by `pickBestArticle`:
`{buffer, size, contentType}`. -/
structure ValidatedImage where
  buffer : List Nat
  size : Nat
  contentType : Option Str
deriving DecidableEq, Repr

/-- An article as the bot consumes it.  Fields can be absent (`undefined` /
`null`), modelled as `none`; `validatedImage` models the `_validatedImage`
cache field. -/
structure Article where
  title : Option Str
  content : Option Str
  description : Option Str
  urlToImage : Option Str
  image : Option Str
  category : Option Str
  validatedImage : Option ValidatedImage
deriving DecidableEq, Repr

/-- JavaScript truthiness of a possibly-absent string (`undefined`, `null`
and `''` are falsy). -/
def jsTruthy : Option Str → Bool
  | some s => !s.isEmpty
  | none => false

/-- `a || b` on possibly-absent strings: the value of `b` when `a` is falsy. -/
def jsOr (a b : Option Str) : Option Str := if jsTruthy a then a else b

/-- `a || ''`. -/
def jsOrEmpty (a : Option Str) : Str := (a.getD [])

/-- `a || b || ''`. -/
def jsOr2Empty (a b : Option Str) : Str := (jsOr a b).getD []

-- ## Smart hashtag selector (`selectSmartHashtags`, src/api/twitter_bot.js:15-92)

/-- `[...new Set(xs)]`: deduplication preserving first occurrences. -/
def uniq : List Str → List Str
  | [] => []
  | x :: xs => x :: uniq (xs.filter (fun y => y ≠ x))
termination_by l => l.length
decreasing_by
  simp only [List.length_cons]
  exact Nat.lt_succ_of_le (List.length_filter_le _ _)

/-- One position of the `/hat.?trick/` pattern: `hat`, at most one character
(not a line terminator), then `trick`. -/
def hatTrickAt (l : Str) : Bool :=
  (str "hat").isPrefixOf l &&
    ((str "trick").isPrefixOf (l.drop 3) ||
      (match l.drop 3 with
       | c :: r => !isLineTerm c && (str "trick").isPrefixOf r
       | [] => false))

/-- `/hat.?trick/.test(s)`. -/
def hasHatTrick : Str → Bool
  | [] => false
  | c :: t => hatTrickAt (c :: t) || hasHatTrick t

/-- `selectSmartHashtags(article)` (src/api/twitter_bot.js:15-92), minus the
`console.log`, which affects nothing.  Each `hashtags.push(...)` under an
`if` becomes a concatenated segment; `fullText` is already lowercase, so the
`/i` regex flags reduce to plain (lowercase) substring tests. -/
def selectSmartHashtags (article : Article) : Str :=
  let title := jsToLower (jsOrEmpty article.title)
  let content := jsToLower (jsOr2Empty article.content article.description)
  let category := jsOrEmpty article.category
  let fullText := title ++ [' '] ++ content
  let hashtags : List Str :=
    if category = str "sport" ∨ category = str "sports" then
      let t1 := if containsSub fullText (str "messi") || containsSub fullText (str "ronaldo") ||
          containsSub fullText (str "neymar") || containsSub fullText (str "mbappe") then
          [str "#GOAT"] else []
      let t2 := if containsSub fullText (str "champions league") || containsSub fullText (str "ucl") then
          [str "#UCL", str "#ChampionsLeague"] else []
      let t3 := if containsSub fullText (str "premier league") || containsSub fullText (str "epl") then
          [str "#PremierLeague", str "#EPL"] else []
      let t4 := if containsSub fullText (str "world cup") || containsSub fullText (str "fifa") then
          [str "#WorldCup", str "#FIFA"] else []
      let t5 := if containsSub fullText (str "barcelona") || containsSub fullText (str "barca") then
          [str "#Barcelona", str "#Barca"] else []
      let t6 := if containsSub fullText (str "real madrid") then
          [str "#RealMadrid", str "#HalaMadrid"] else []
      let t7 := if containsSub fullText (str "manchester united") || containsSub fullText (str "man utd") then
          [str "#MUFC", str "#ManUtd"] else []
      let t8 := if containsSub fullText (str "liverpool") then
          [str "#LFC", str "#Liverpool"] else []
      let t9 := if containsSub fullText (str "arsenal") then
          [str "#Arsenal", str "#AFC"] else []
      let t10 := if containsSub fullText (str "chelsea") then
          [str "#Chelsea", str "#CFC"] else []
      let t11 := if containsSub fullText (str "transfer") || containsSub fullText (str "signing") ||
          containsSub fullText (str "deal") then [str "#TransferNews"] else []
      let t12 := if containsSub fullText (str "injury") || containsSub fullText (str "injured") then
          [str "#InjuryUpdate"] else []
      let t13 := if containsSub fullText (str "goal") || containsSub fullText (str "scored") ||
          hasHatTrick fullText then [str "#Goals"] else []
      let pushed := t1 ++ t2 ++ t3 ++ t4 ++ t5 ++ t6 ++ t7 ++ t8 ++ t9 ++ t10 ++ t11 ++ t12 ++ t13
      let withFallback := if pushed.length = 0 then pushed ++ [str "#Football", str "#Soccer"] else pushed
      withFallback ++ [str "#Sports"]
    else []
  let hashtags2 := hashtags ++
    (if containsSub fullText (str "breaking") || containsSub fullText (str "just in") ||
        containsSub fullText (str "update") then [str "#BreakingNews"] else []) ++
    (if containsSub fullText (str "viral") || containsSub fullText (str "trending") then
        [str "#Viral"] else []) ++
    (if containsSub fullText (str "shocking") || containsSub fullText (str "unbelievable") ||
        containsSub fullText (str "amazing") then [str "#Shocking"] else [])
  let uniqueTags := uniq hashtags2
  let selectedTags := uniqueTags.take 4
  List.intercalate [' '] selectedTags

-- ## Tweet text composer (`createTweetText`, src/api/twitter_bot.js:347-421)

/-- Dropping a nonempty prefix and then a `dropWhile` strictly shrinks a
nonempty list (termination measure for `stripUrls`). -/
theorem drop_dropWhile_length_lt (c : Char) (cs : Str) (k : Nat) (hk : 1 ≤ k)
    (p : Char → Bool) :
    (((c :: cs).drop k).dropWhile p).length < (c :: cs).length := by
  have h2 := length_dropWhile_le p ((c :: cs).drop k)
  simp only [List.length_drop, List.length_cons] at *
  omega

/-- Length of the `https?://` literal matched at the head of `l`
(`https?` backtracks from the longer alternative), 0 when neither matches. -/
def httpSchemeLen (l : Str) : Nat :=
  if (str "https://").isPrefixOf l then 8
  else if (str "http://").isPrefixOf l then 7
  else 0

/-- `.replace(/https?:\/\/[^\s]+/g, '')`: drop every scheme-led maximal run
of non-whitespace; a scheme followed by whitespace is not a match (the
`[^\s]+` needs at least one character). -/
def stripUrls (l : Str) : Str :=
  match l with
  | [] => []
  | c :: cs =>
    if httpSchemeLen (c :: cs) = 0 then c :: stripUrls cs
    else
      if ((c :: cs).drop (httpSchemeLen (c :: cs))).takeWhile (fun ch => !(isJsWs ch)) = [] then
        c :: stripUrls cs
      else
        stripUrls (((c :: cs).drop (httpSchemeLen (c :: cs))).dropWhile (fun ch => !(isJsWs ch)))
termination_by l.length
decreasing_by
  · simp only [List.length_cons]
    omega
  · simp only [List.length_cons]
    omega
  · rename_i h1 _
    exact drop_dropWhile_length_lt _ _ _ (Nat.one_le_iff_ne_zero.mpr h1) _

/-- Index of the first `]` in `l` reachable without crossing a line
terminator (`.` in `/\[.*?\]/` does not match line terminators). -/
def findCloseBracket : Str → Option Nat
  | [] => none
  | c :: cs =>
    if c = ']' then some 0
    else if isLineTerm c then none
    else (findCloseBracket cs).map (· + 1)

/-- `.replace(/\[.*?\]/g, '')`: drop each `[...]` group (lazily matched, not
crossing line terminators). -/
def stripBrackets (l : Str) : Str :=
  match l with
  | [] => []
  | c :: cs =>
    if c = '[' then
      match findCloseBracket cs with
      | some j => stripBrackets (cs.drop (j + 1))
      | none => c :: stripBrackets cs
    else c :: stripBrackets cs
termination_by l.length
decreasing_by
  · simp only [List.length_drop, List.length_cons]
    omega
  · simp only [List.length_cons]
    omega
  · simp only [List.length_cons]
    omega

/-- `.replace(/\s+/g, ' ')`: collapse each maximal whitespace run to a single
space. -/
def collapseWs : Str → Str
  | [] => []
  | c :: cs =>
    if isJsWs c then ' ' :: collapseWs (cs.dropWhile isJsWs)
    else c :: collapseWs cs
termination_by l => l.length
decreasing_by
  · simp only [List.length_cons]
    exact Nat.lt_succ_of_le (length_dropWhile_le isJsWs _)
  · simp only [List.length_cons]
    omega

/-- `c` is sentence-ending punctuation (the `/[.!?]+/` class). -/
def isSentEnd (c : Char) : Bool := c = '.' || c = '!' || c = '?'

/-- Accumulator-based `split(/[.!?]+/)`: a maximal punctuation run is one
separator. -/
def splitSentAux : Str → Str → List Str
  | [], acc => [acc.reverse]
  | c :: cs, acc =>
    if isSentEnd c then acc.reverse :: splitSentAux (cs.dropWhile isSentEnd) []
    else splitSentAux cs (c :: acc)
termination_by l _ => l.length
decreasing_by
  · simp only [List.length_cons]
    exact Nat.lt_succ_of_le (length_dropWhile_le isSentEnd _)
  · simp only [List.length_cons]
    omega

/-- `.split(/[.!?]+/)`. -/
def splitSent (l : Str) : List Str := splitSentAux l []

/-- `.split(' ')` (single-space string separator). -/
def splitOnSpaceAux : Str → Str → List Str
  | [], acc => [acc.reverse]
  | c :: cs, acc =>
    if c = ' ' then acc.reverse :: splitOnSpaceAux cs []
    else splitOnSpaceAux cs (c :: acc)

/-- `.split(' ')`. -/
def splitOnSpace (l : Str) : List Str := splitOnSpaceAux l []

/-- `s.endsWith(c)` for a single character. -/
def jsEndsWith (l : Str) (c : Char) : Bool := l.getLast? == some c

/-- The snippet computation of `createTweetText` (src/api/twitter_bot.js:351-373):
clean the body (URLs and bracketed markers stripped, whitespace collapsed),
take the first two sentences — or, with no sentence boundary, the first 50
words — as the snippet.  `''` when the source text is falsy. -/
def computeSnippet (source : Str) : Str :=
  if source.isEmpty then []
  else
    let cleanContent := jsTrim (collapseWs (stripBrackets (stripUrls source)))
    let sentences := (splitSent cleanContent).filter (fun s => (jsTrim s).length > 0)
    if sentences.length > 0 then
      let s1 := jsTrim (List.intercalate (str ". ") (sentences.take 2))
      if !(jsEndsWith s1 '.') && !(jsEndsWith s1 '!') && !(jsEndsWith s1 '?') then s1 ++ ['.']
      else s1
    else
      let words := splitOnSpace cleanContent
      let w := List.intercalate [' '] (words.take 50)
      if words.length > 50 then w ++ str "..." else w

/-- `hashtags ? hashtags.length + 2 : 0`. -/
def hashtagSpaceOf (hashtags : Str) : Int :=
  if !hashtags.isEmpty then (hashtags.length : Int) + 2 else 0

/-- `title.substring(0, maxTweetLength - 3).trim() + '...'` — the truncated
title with ellipsis used by strategy 3 and by the emergency truncation. -/
def truncTitle (title : Str) : Str := jsTrim (title.take 277) ++ str "..."

/-- `createTweetText(article)` (src/api/twitter_bot.js:347-421): strategy 1
(title + snippet + hashtags), strategy 2 (title + hashtags), strategy 3
(title, truncated when over budget), then the final safety re-measurement.
All length arithmetic is over `Int`, as in JavaScript. -/
def createTweetText (article : Article) : Str :=
  let title := jsOrEmpty article.title
  let source := jsOr2Empty article.content article.description
  let snippet0 := computeSnippet source
  let hashtags := selectSmartHashtags article
  let hashtagSpace : Int := hashtagSpaceOf hashtags
  let titleSpace : Int := (title.length : Int)
  let availableForSnippet : Int := 280 - titleSpace - 4 - hashtagSpace
  -- `snippet = snippet.substring(0, availableForSnippet - 3).trim() + '...'`,
  -- applied only inside strategy 1 when the snippet overflows
  let snippet : Str :=
    if !snippet0.isEmpty ∧ availableForSnippet > 50 ∧ (snippet0.length : Int) > availableForSnippet then
      jsTrim (snippet0.take (availableForSnippet - 3).toNat) ++ str "..."
    else snippet0
  let tweetText : Str :=
    if !snippet0.isEmpty ∧ availableForSnippet > 50 then
      if !hashtags.isEmpty then title ++ str "\n\n" ++ snippet ++ str "\n\n" ++ hashtags
      else title ++ str "\n\n" ++ snippet
    else if !hashtags.isEmpty ∧ titleSpace + hashtagSpace + 2 ≤ 280 then
      title ++ str "\n\n" ++ hashtags
    else if titleSpace > 280 - 3 then truncTitle title
    else title
  -- final safety check
  if tweetText.length > 280 then
    let withoutHashtags := title ++ str "\n\n" ++ snippet
    if withoutHashtags.length ≤ 280 then withoutHashtags
    else truncTitle title
  else tweetText

-- ## Claims C3, C9 — tweet composition

/-- The truncated title+ellipsis never exceeds the budget. -/
theorem truncTitle_length_le (title : Str) : (truncTitle title).length ≤ 280 := by
  have h1 := jsTrim_length_le (title.take 277)
  have h2 : (title.take 277).length ≤ 277 := by
    simp [List.length_take]
  simp only [truncTitle, List.length_append]
  have h3 : (str "...").length = 3 := rfl
  omega

/-- The final safety re-measurement of `createTweetText` bounds the output by
280 whatever the strategies produced. -/
theorem finalSafety_length_le (title wh tt : Str) :
    (if tt.length > 280 then (if wh.length ≤ 280 then wh else truncTitle title) else tt).length ≤ 280 := by
  have htr := truncTitle_length_le title
  split
  · split
    · rename_i h2
      exact h2
    · exact htr
  · rename_i h1
    omega

/-- The composed tweet never exceeds 280 characters. -/
theorem createTweetText_length_le (article : Article) :
    (createTweetText article).length ≤ 280 := by
  simp only [createTweetText]
  exact finalSafety_length_le _ _ _

/-- With a title longer than the budget no strategy fits and composition
reduces to the truncated title (stated over the components of
`createTweetText`'s body). -/
theorem compose_long_title (title sn0 hashtags snippet : Str)
    (hlen : 280 < title.length) (hhs : 0 ≤ hashtagSpaceOf hashtags) :
    (let tweetText :=
      if (!sn0.isEmpty) = true ∧ (280 : Int) - (title.length : Int) - 4 - hashtagSpaceOf hashtags > 50 then
        if (!hashtags.isEmpty) = true then title ++ str "\n\n" ++ snippet ++ str "\n\n" ++ hashtags
        else title ++ str "\n\n" ++ snippet
      else if (!hashtags.isEmpty) = true ∧ (title.length : Int) + hashtagSpaceOf hashtags + 2 ≤ 280 then
        title ++ str "\n\n" ++ hashtags
      else if (title.length : Int) > 280 - 3 then truncTitle title
      else title
     if tweetText.length > 280 then
       if (title ++ str "\n\n" ++ snippet).length ≤ 280 then title ++ str "\n\n" ++ snippet
       else truncTitle title
     else tweetText) = truncTitle title := by
  have htr := truncTitle_length_le title
  have hc1 : ¬((!sn0.isEmpty) = true ∧
      (280 : Int) - (title.length : Int) - 4 - hashtagSpaceOf hashtags > 50) := by
    rintro ⟨-, hb⟩
    omega
  have hc2 : ¬((!hashtags.isEmpty) = true ∧
      (title.length : Int) + hashtagSpaceOf hashtags + 2 ≤ 280) := by
    rintro ⟨-, hb⟩
    omega
  have hc3 : (title.length : Int) > 280 - 3 := by omega
  simp only []
  rw [if_neg hc1, if_neg hc2, if_pos hc3, if_neg (by omega : ¬(truncTitle title).length > 280)]

/-- An over-long title composes to the truncated title with ellipsis. -/
theorem createTweetText_long_title (article : Article)
    (h : 280 < (jsOrEmpty article.title).length) :
    createTweetText article = truncTitle (jsOrEmpty article.title) := by
  have hhs : 0 ≤ hashtagSpaceOf (selectSmartHashtags article) := by
    unfold hashtagSpaceOf
    split
    · omega
    · omega
  simp only [createTweetText]
  exact compose_long_title _ _ _ _ h hhs

/-- C3: `createTweetText` always returns at most 280 characters for every
article (it is a total function, so it never raises), and when the title
alone already exceeds the budget — so nothing shorter fits — the result is
the title hard-truncated to 277 characters with an ellipsis marker appended. -/
theorem claim_C3 (article : Article) :
    (createTweetText article).length ≤ 280 ∧
    (280 < (jsOrEmpty article.title).length →
      createTweetText article = truncTitle (jsOrEmpty article.title)) :=
  ⟨createTweetText_length_le article, fun h => createTweetText_long_title article h⟩

set_option maxRecDepth 2000 in
/-- C3 witness: a 281-character title composes to the 277-character
truncation plus `...`, within budget. -/
theorem claim_C3_witness :
    (createTweetText ⟨some (List.replicate 281 'a'), none, none, none, none, none, none⟩).length ≤ 280 ∧
    createTweetText ⟨some (List.replicate 281 'a'), none, none, none, none, none, none⟩ =
      truncTitle (List.replicate 281 'a') := by
  obtain ⟨h1, h2⟩ := claim_C3 ⟨some (List.replicate 281 'a'), none, none, none, none, none, none⟩
  exact ⟨h1, h2 (by decide)⟩

/-- C9: `createTweetText` is a pure function of the article's title, content,
description and category: two calls on articles that agree on those fields
(whatever their other fields) yield character-for-character identical output —
there is no dependence on time, randomness, or hidden state. -/
theorem claim_C9 (a b : Article) (ht : a.title = b.title) (hc : a.content = b.content)
    (hd : a.description = b.description) (hcat : a.category = b.category) :
    createTweetText a = createTweetText b := by
  obtain ⟨t, c, d, u, i, g, v⟩ := a
  obtain ⟨t2, c2, d2, u2, i2, g2, v2⟩ := b
  dsimp only at ht hc hd hcat
  subst ht
  subst hc
  subst hd
  subst hcat
  rfl

/-- C9 witness: identical title/content/category but different image fields
and cache yield the identical tweet text. -/
theorem claim_C9_witness :
    createTweetText ⟨some (str "T"), some (str "Body."), none,
        some (str "http://a/1.jpg"), none, some (str "sport"), none⟩ =
      createTweetText ⟨some (str "T"), some (str "Body."), none,
        some (str "http://b/2.jpg"), some (str "x"), some (str "sport"),
        some ⟨[1], 1, none⟩⟩ :=
  claim_C9 _ _ rfl rfl rfl rfl

-- ## Best-article selection (`pickBestArticle`, src/api/twitter_bot.js:248-328)

/-- The completeness filter, title test (line 263): `a.title` truthy and a
string with non-empty trim. -/
def hasValidTitle (a : Article) : Bool :=
  match a.title with
  | some t => decide (0 < (jsTrim t).length)
  | none => false

/-- The completeness filter, content test (line 264): `a.content || a.description`
truthy. -/
def hasContentField (a : Article) : Bool := jsTruthy a.content || jsTruthy a.description

/-- The completeness filter, image test (lines 265-267): `a.urlToImage || a.image`
truthy, a string, and starting with `http`. -/
def hasImageField (a : Article) : Bool :=
  match jsOr a.urlToImage a.image with
  | some u => !u.isEmpty && (str "http").isPrefixOf u
  | none => false

/-- The completeness filter of `pickBestArticle` (lines 257-283). -/
def passesCompleteness (a : Article) : Bool :=
  hasValidTitle a && hasContentField a && hasImageField a

/-- `(a.content || a.description || '').length` — the ranking key (lines 294-295). -/
def contentLen (a : Article) : Nat := (jsOr2Empty a.content a.description).length

/-- The sort comparator `(a, b) => bLength - aLength` read as the relation
"`a` may precede `b`": content length descending; a stable sort under this
relation keeps ties in input order, as the JavaScript engine's stable
`Array.prototype.sort` does. -/
def byContentDesc (a b : Article) : Prop := contentLen b ≤ contentLen a

instance : DecidableRel byContentDesc := fun _ _ => Nat.decLe _ _

instance : IsTotal Article byContentDesc :=
  ⟨fun a b => Nat.le_total (contentLen b) (contentLen a)⟩

instance : IsTrans Article byContentDesc :=
  ⟨fun _ _ _ hab hbc => le_trans hbc hab⟩

/-- `article.image || article.urlToImage` (line 307) — note the order is
flipped relative to the completeness filter. -/
def selImageUrl (a : Article) : Str := (jsOr a.image a.urlToImage).getD []

/-- The attachment performed on a successful validation (lines 313-319):
cache the buffer as `_validatedImage` and overwrite `urlToImage` with the
URL actually validated. -/
def attachValidated (a : Article) (buf : List Nat) (sz : Nat) (ct : Option Str) : Article :=
  { a with validatedImage := some ⟨buf, sz, ct⟩, urlToImage := some (selImageUrl a) }

/-- The selection loop (lines 302-324): validate each candidate's image in
turn, returning the first success with the attachment, else `null`. -/
def tryTopCandidates (validate : Str → ValidationResult) : List Article → Option Article
  | [] => none
  | a :: rest =>
    match validate (selImageUrl a) with
    | .ok buf sz ct => some (attachValidated a buf sz ct)
    | .bad _ _ => tryTopCandidates validate rest

/-- `articles.filter(...)` of lines 257-283 (`null` entries are dropped by
the `if (!a) return false` guard). -/
def candidatesOf (arts : List (Option Article)) : List Article :=
  arts.filterMap (fun a? =>
    match a? with
    | none => none
    | some a => if passesCompleteness a then some a else none)

/-- `pickBestArticle(articles)` (src/api/twitter_bot.js:248-328).  `validate`
is the verdict `validateAndTestImage` reaches for each URL during the run;
the input may be `null` (`none`) and may contain `null` entries. -/
def pickBestArticle (validate : Str → ValidationResult)
    (articles : Option (List (Option Article))) : Option Article :=
  match articles with
  | none => none
  | some arts =>
    if arts.length = 0 then none
    else
      let candidates := candidatesOf arts
      if candidates.length = 0 then none
      else tryTopCandidates validate ((List.insertionSort byContentDesc candidates).take 5)

-- ## Claims C5, C6 — selection

/-- The selection loop returns exactly the first candidate whose image
validates, with the validated attachment applied. -/
theorem tryTopCandidates_eq_find (validate : Str → ValidationResult) (l : List Article) :
    tryTopCandidates validate l =
      (l.find? (fun a => (validate (selImageUrl a)).isValid)).map
        (fun a => match validate (selImageUrl a) with
          | .ok buf sz ct => attachValidated a buf sz ct
          | .bad _ _ => a) := by
  induction l with
  | nil => rfl
  | cons a rest ih =>
    cases hv : validate (selImageUrl a) with
    | ok buf sz ct =>
      simp [tryTopCandidates, List.find?, hv, ValidationResult.isValid]
    | bad r hs =>
      simp [tryTopCandidates, List.find?, hv, ValidationResult.isValid, ih]

/-- C5: `pickBestArticle` ranks the completeness-filtered candidates by a
stable sort that is descending in content length (a permutation of the
candidates), examines only the first 5 ranked candidates, and returns the
first of them whose image validates — with the validated buffer attached and
`urlToImage` overwritten — or `null` when none of the 5 validates. -/
theorem claim_C5 (validate : Str → ValidationResult) (arts : List (Option Article)) :
    List.Sorted byContentDesc (List.insertionSort byContentDesc (candidatesOf arts)) ∧
    (List.insertionSort byContentDesc (candidatesOf arts)).Perm (candidatesOf arts) ∧
    pickBestArticle validate (some arts) =
      (((List.insertionSort byContentDesc (candidatesOf arts)).take 5).find?
          (fun a => (validate (selImageUrl a)).isValid)).map
        (fun a => match validate (selImageUrl a) with
          | .ok buf sz ct => attachValidated a buf sz ct
          | .bad _ _ => a) := by
  refine ⟨List.sorted_insertionSort _ _, List.perm_insertionSort _ _, ?_⟩
  rw [← tryTopCandidates_eq_find]
  unfold pickBestArticle
  by_cases h0 : arts.length = 0
  · have h0' : arts = [] := List.length_eq_zero.mp h0
    subst h0'
    simp [candidatesOf, tryTopCandidates]
  · simp only [h0, if_false]
    by_cases h1 : (candidatesOf arts).length = 0
    · have h1' : candidatesOf arts = [] := List.length_eq_zero.mp h1
      simp [h1, h1', tryTopCandidates]
    · simp [h1]

/-- A selection-loop success always carries a `urlToImage` that the validator
accepted. -/
theorem tryTopCandidates_valid (validate : Str → ValidationResult) (l : List Article)
    (a : Article) (h : tryTopCandidates validate l = some a) :
    ∃ u, a.urlToImage = some u ∧ (validate u).isValid = true := by
  induction l with
  | nil => simp [tryTopCandidates] at h
  | cons x rest ih =>
    rw [tryTopCandidates] at h
    cases hv : validate (selImageUrl x) with
    | ok buf sz ct =>
      rw [hv] at h
      obtain rfl : attachValidated x buf sz ct = a := by
        simpa using h
      exact ⟨selImageUrl x, rfl, by simp [hv, ValidationResult.isValid]⟩
    | bad r hs =>
      rw [hv] at h
      exact ih h

/-- C6: `pickBestArticle` returns `null` — never an exception (it is a total
function) — on a `null` batch, an empty batch, and any batch all of whose
non-null entries fail the completeness filter; and every article it does
return carries an image URL that passed validation. -/
theorem claim_C6 (validate : Str → ValidationResult) :
    pickBestArticle validate none = none ∧
    pickBestArticle validate (some []) = none ∧
    (∀ arts, (∀ a? ∈ arts, ∀ a, a? = some a → passesCompleteness a = false) →
      pickBestArticle validate (some arts) = none) ∧
    (∀ arts a, pickBestArticle validate (some arts) = some a →
      ∃ u, a.urlToImage = some u ∧ (validate u).isValid = true) := by
  refine ⟨rfl, rfl, ?_, ?_⟩
  · intro arts hall
    have hcand : candidatesOf arts = [] := by
      rw [candidatesOf, List.filterMap_eq_nil_iff]
      intro a? ha
      cases a? with
      | none => rfl
      | some a => simp [hall (some a) ha a rfl]
    unfold pickBestArticle
    by_cases h0 : arts.length = 0
    · simp [h0]
    · simp [h0, hcand]
  · intro arts a h
    unfold pickBestArticle at h
    by_cases h0 : arts.length = 0
    · simp [h0] at h
    · simp only [h0, if_false] at h
      by_cases h1 : (candidatesOf arts).length = 0
      · simp [h1] at h
      · simp only [h1, if_false] at h
        exact tryTopCandidates_valid validate _ a h

/-- A validator that rejects everything (for exercising the selector's
failure paths). -/
def valAlwaysBad : Str → ValidationResult := fun _ => .bad (str "bad") none

/-- C6 witness: a batch whose only entry lacks a title yields `null`, as does
a `null` batch. -/
theorem claim_C6_witness :
    pickBestArticle valAlwaysBad
        (some [some ⟨none, some (str "body"), none, some (str "http://a"), none, none, none⟩]) = none ∧
    pickBestArticle valAlwaysBad none = none :=
  ⟨(claim_C6 valAlwaysBad).2.2.1
      [some ⟨none, some (str "body"), none, some (str "http://a"), none, none, none⟩]
      (by
        intro a? ha a hEq
        simp only [List.mem_singleton] at ha
        subst ha
        cases hEq
        decide),
    (claim_C6 valAlwaysBad).1⟩

-- ## Claim C10 — in-place mutation of the selected article (heap model)

/-- Ranking key of the article stored at index `i`. -/
def keyAt (store : List Article) (i : Nat) : Nat :=
  match store.get? i with
  | some a => contentLen a
  | none => 0

/-- The sort comparator of `pickBestArticle` lifted to store indices. -/
def byContentDescIdx (store : List Article) (i j : Nat) : Prop :=
  keyAt store j ≤ keyAt store i

instance (store : List Article) : DecidableRel (byContentDescIdx store) :=
  fun _ _ => Nat.decLe _ _

/-- The selection loop over store indices: on the first index whose article's
image validates, mutate that slot in place (attach `_validatedImage`,
overwrite `urlToImage`) and return the reference. -/
def tryTopStore (validate : Str → ValidationResult) (store : List Article) :
    List Nat → Option Nat × List Article
  | [] => (none, store)
  | i :: rest =>
    match store.get? i with
    | none => tryTopStore validate store rest
    | some a =>
      match validate (selImageUrl a) with
      | .ok buf sz ct => (some i, store.set i (attachValidated a buf sz ct))
      | .bad _ _ => tryTopStore validate store rest

/-- Heap-level rendering of `pickBestArticle` (src/api/twitter_bot.js:248-328)
for a batch with no `null` entries: the batch is a store of article objects
addressed by index; the returned reference is the index of the selected,
mutated article in the returned store. -/
def pickBestArticleStore (validate : Str → ValidationResult) (store : List Article) :
    Option Nat × List Article :=
  if store.length = 0 then (none, store)
  else
    let candIdx := (List.range store.length).filter (fun i =>
      match store.get? i with
      | some a => passesCompleteness a
      | none => false)
    if candIdx.length = 0 then (none, store)
    else tryTopStore validate store ((List.insertionSort (byContentDescIdx store) candIdx).take 5)

/-- A selection-loop success mutates exactly the selected slot; a failure
leaves the store untouched. -/
theorem tryTopStore_cases (validate : Str → ValidationResult) (store : List Article)
    (idxs : List Nat) :
    (∀ i store2, tryTopStore validate store idxs = (some i, store2) →
      ∃ a buf sz ct, store.get? i = some a ∧ validate (selImageUrl a) = .ok buf sz ct ∧
        store2 = store.set i (attachValidated a buf sz ct)) ∧
    (∀ store2, tryTopStore validate store idxs = (none, store2) → store2 = store) := by
  induction idxs with
  | nil =>
    constructor
    · intro i store2 h
      simp [tryTopStore] at h
    · intro store2 h
      simp only [tryTopStore, Prod.mk.injEq] at h
      exact h.2.symm
  | cons k rest ih =>
    have step : ∀ h2 : Option Nat × List Article,
        tryTopStore validate store (k :: rest) = h2 →
        (match store.get? k with
          | none => tryTopStore validate store rest
          | some a =>
            match validate (selImageUrl a) with
            | .ok buf sz ct => (some k, store.set k (attachValidated a buf sz ct))
            | .bad _ _ => tryTopStore validate store rest) = h2 := by
      intro h2 h
      rw [← h, tryTopStore]
    constructor
    · intro i store2 h
      have h' := step _ h
      cases hk : store.get? k with
      | none =>
        rw [hk] at h'
        exact ih.1 i store2 h'
      | some a =>
        rw [hk] at h'
        dsimp only at h'
        cases hv : validate (selImageUrl a) with
        | ok buf sz ct =>
          rw [hv] at h'
          dsimp only at h'
          have h1 : some k = some i := congrArg Prod.fst h'
          have h2 : store.set k (attachValidated a buf sz ct) = store2 := congrArg Prod.snd h'
          obtain rfl : k = i := Option.some.inj h1
          exact ⟨a, buf, sz, ct, hk, hv, h2.symm⟩
        | bad r hs =>
          rw [hv] at h'
          exact ih.1 i store2 h'
    · intro store2 h
      have h' := step _ h
      cases hk : store.get? k with
      | none =>
        rw [hk] at h'
        exact ih.2 store2 h'
      | some a =>
        rw [hk] at h'
        dsimp only at h'
        cases hv : validate (selImageUrl a) with
        | ok buf sz ct =>
          rw [hv] at h'
          dsimp only at h'
          exact absurd (congrArg Prod.fst h') (by simp)
        | bad r hs =>
          rw [hv] at h'
          exact ih.2 store2 h'

/-- C10: when selection succeeds, `pickBestArticle` mutates the selected
article object in place — the returned store equals the input store with only
the selected slot replaced by the article with `_validatedImage` attached and
`urlToImage` overwritten by the validated URL — and returns that same object
by reference (the index into the mutated store); every other slot is
untouched, and a failed selection leaves the whole store unchanged. -/
theorem claim_C10 (validate : Str → ValidationResult) (store : List Article) :
    (∀ i store2, pickBestArticleStore validate store = (some i, store2) →
      ∃ a buf sz ct, store.get? i = some a ∧ validate (selImageUrl a) = .ok buf sz ct ∧
        store2 = store.set i (attachValidated a buf sz ct) ∧
        store2.get? i = some (attachValidated a buf sz ct) ∧
        ∀ j, j ≠ i → store2.get? j = store.get? j) ∧
    (∀ store2, pickBestArticleStore validate store = (none, store2) → store2 = store) := by
  constructor
  · intro i store2 h
    unfold pickBestArticleStore at h
    by_cases h0 : store.length = 0
    · simp [h0] at h
    · simp only [h0, if_false] at h
      by_cases h1 : ((List.range store.length).filter (fun i =>
          match store.get? i with
          | some a => passesCompleteness a
          | none => false)).length = 0
      · rw [if_pos h1] at h
        simp at h
      · rw [if_neg h1] at h
        obtain ⟨a, buf, sz, ct, hget, hval, hset⟩ := (tryTopStore_cases validate store _).1 i store2 h
        have hlt : i < store.length := by
          by_contra hge
          rw [List.get?_eq_none.mpr (Nat.le_of_not_lt hge)] at hget
          exact Option.noConfusion hget
        refine ⟨a, buf, sz, ct, hget, hval, hset, ?_, ?_⟩
        · rw [hset]
          exact List.get?_set_eq_of_lt _ hlt
        · intro j hj
          rw [hset]
          exact List.get?_set_ne _ _ (fun hji => hj hji.symm)
  · intro store2 h
    unfold pickBestArticleStore at h
    by_cases h0 : store.length = 0
    · simp only [h0, if_pos, Prod.mk.injEq] at h
      exact h.2.symm
    · simp only [h0, if_false] at h
      by_cases h1 : ((List.range store.length).filter (fun i =>
          match store.get? i with
          | some a => passesCompleteness a
          | none => false)).length = 0
      · rw [if_pos h1] at h
        exact (Prod.mk.injEq _ _ _ _ ▸ h).2.symm
      · rw [if_neg h1] at h
        exact (tryTopStore_cases validate store _).2 store2 h

/-- A validator that accepts everything with a fixed 3-byte JPEG-signature
buffer (for exercising the selector's success path). -/
def valSmallOk : Str → ValidationResult := fun _ => .ok [0xFF, 0xD8, 0xFF] 3 none

/-- The one-article store used by the C10 witness. -/
def storeEx : List Article :=
  [⟨some (str "T"), some (str "body"), none, some (str "http://a/i.jpg"), none, none, none⟩]

/-- `storeEx` after the in-place mutation of slot 0. -/
def storeEx2 : List Article :=
  [⟨some (str "T"), some (str "body"), none, some (str "http://a/i.jpg"), none, none,
    some ⟨[0xFF, 0xD8, 0xFF], 3, none⟩⟩]

/-- C10 witness: on a one-article store whose image validates, selection
returns slot 0 mutated in place and leaves every other slot untouched. -/
theorem claim_C10_witness :
    ∃ a buf sz ct, storeEx.get? 0 = some a ∧
      valSmallOk (selImageUrl a) = .ok buf sz ct ∧
      storeEx2 = storeEx.set 0 (attachValidated a buf sz ct) ∧
      storeEx2.get? 0 = some (attachValidated a buf sz ct) ∧
      ∀ j, j ≠ 0 → storeEx2.get? j = storeEx.get? j :=
  (claim_C10 valSmallOk storeEx).1 0 storeEx2 (by decide)

-- ## Publish action (`postToX`, src/api/twitter_bot.js:424-574)

/-- MIME detection from the first buffer bytes (lines 481-492); the default
is `image/jpeg`. -/
def detectMime (buffer : List Nat) : Str :=
  let m := buffer.take 4
  if m.get? 0 == some 0xFF && m.get? 1 == some 0xD8 then str "image/jpeg"
  else if m.get? 0 == some 0x89 && m.get? 1 == some 0x50 then str "image/png"
  else if m.get? 0 == some 0x47 && m.get? 1 == some 0x49 then str "image/gif"
  else str "image/jpeg"

/-- The network-error test applied to a failed upload (line 518):
`uploadError.type === 'request' || message.includes('ECONNRESET') ||
message.includes('ETIMEDOUT')`. -/
def isTransientUpload (e : JsError) : Bool :=
  e.etype == some (str "request") || containsSub e.message (str "ECONNRESET") ||
    containsSub e.message (str "ETIMEDOUT")

/-- A thrown `new Error(m)`. -/
def jsErrorMsg (m : String) : JsError := ⟨str m, none, none, none, none, none⟩

/-- `downloadImageBuffer(url, cachedValidation)` (lines 331-344): the cached
buffer when present, else a fresh validation whose failure throws. -/
def downloadImageBuffer (validate : Str → ValidationResult) (url : Str)
    (cached : Option ValidatedImage) : Except JsError (List Nat) :=
  match cached with
  | some vi => .ok vi.buffer
  | none =>
    match validate url with
    | .ok buf _ _ => .ok buf
    | .bad reason _ =>
      .error ⟨str "Image validation failed: " ++ reason, none, none, none, none, none⟩

/-- The `try` body of `postToX` (lines 425-557): the created tweet id, or the
thrown error; the second component counts the calls made to
`twitterClient.v1.uploadMedia`.  `validate` stands for `validateAndTestImage`
on this run, `upload` maps (detected MIME type, attempt number) to the
platform's outcome, and `tweetApi` is the outcome of
`twitterClient.v2.tweet`. -/
def postToXBody (article? : Option Article) (validate : Str → ValidationResult)
    (upload : Str → Nat → Except JsError Str) (tweetApi : Except JsError Str) :
    Except JsError Str × Nat :=
  match article? with
  | none => (.error (jsErrorMsg "No article provided"), 0)
  | some a =>
    -- line 433: `!article.title || typeof !== 'string' || trim().length === 0`
    if !(hasValidTitle a) then (.error (jsErrorMsg "Article missing valid title"), 0)
    else
      -- line 440: `article.urlToImage || article.image`
      match jsOr a.urlToImage a.image with
      | none => (.error (jsErrorMsg "Article missing valid image URL"), 0)
      | some imageUrl =>
        if imageUrl.isEmpty || !((str "http").isPrefixOf imageUrl) then
          (.error (jsErrorMsg "Article missing valid image URL"), 0)
        else
          let tweetText := createTweetText a
          if tweetText.length > 280 then
            (.error ⟨str "Tweet too long: " ++ str (toString tweetText.length) ++
              str " characters", none, none, none, none, none⟩, 0)
          else
            match downloadImageBuffer validate imageUrl a.validatedImage with
            | .error e => (.error e, 0)
            | .ok imageBuffer =>
              if imageBuffer.length = 0 then
                (.error (jsErrorMsg "Image buffer is empty or invalid"), 0)
              else if imageBuffer.length > 5 * 1024 * 1024 then
                (.error ⟨str "Image too large for Twitter: " ++
                  fmtFixed2 imageBuffer.length 1024 ++ str " KB (max 5MB)",
                  none, none, none, none, none⟩, 0)
              else
                match upload (detectMime imageBuffer) 0 with
                | .error uploadError =>
                  if isTransientUpload uploadError then
                    (.error (jsErrorMsg "Network error during image upload. Please try again."), 1)
                  else (.error uploadError, 1)
                | .ok _mediaId =>
                  match tweetApi with
                  | .error tweetError => (.error tweetError, 1)
                  | .ok tweetId => (.ok tweetId, 1)

/-- The structured outcome of `postToX`: `{success:true, tweetId, tweetUrl}`
or `{success:false, error, details:{code, data, errors}}`. -/
inductive PostResult where
  | success (tweetId : Str) (tweetUrl : Str)
  | failure (error : Str) (code : Option Str) (dataJson : Option Str) (errorsJson : Option Str)
deriving DecidableEq, Repr

/-- `https://twitter.com/i/web/status/` ++ id. -/
def twitterStatusUrl (id : Str) : Str := str "https://twitter.com/i/web/status/" ++ id

/-- `postToX(article)` (src/api/twitter_bot.js:424-574): the `try` body
wrapped in the outer `catch`, which converts every thrown error into the
structured failure object. -/
def postToX (article? : Option Article) (validate : Str → ValidationResult)
    (upload : Str → Nat → Except JsError Str) (tweetApi : Except JsError Str) :
    PostResult × Nat :=
  match postToXBody article? validate upload tweetApi with
  | (.ok tweetId, n) => (.success tweetId (twitterStatusUrl tweetId), n)
  | (.error e, n) => (.failure e.message e.code e.dataJson e.errorsJson, n)

-- ## Claims C4, C7 — publish

/-- The `try` body of `postToX` calls `uploadMedia` at most once, whatever
the inputs and however the upload or tweet calls fail. -/
theorem postToXBody_attempts_le (article? : Option Article) (validate : Str → ValidationResult)
    (upload : Str → Nat → Except JsError Str) (tweetApi : Except JsError Str) :
    (postToXBody article? validate upload tweetApi).2 ≤ 1 := by
  unfold postToXBody
  repeat' split
  all_goals (simp [apply_ite Prod.snd] <;> split <;> simp)

/-- The outer `catch` does not change the upload-attempt count. -/
theorem postToX_attempts_eq (article? : Option Article) (validate : Str → ValidationResult)
    (upload : Str → Nat → Except JsError Str) (tweetApi : Except JsError Str) :
    (postToX article? validate upload tweetApi).2 =
      (postToXBody article? validate upload tweetApi).2 := by
  unfold postToX
  match h : postToXBody article? validate upload tweetApi with
  | (.ok id, n) => simp [h]
  | (.error e, n) => simp [h]

/-- C7: `postToX` always returns a structured outcome object and never
propagates an exception: every thrown error `e` of the `try` body surfaces as
`{success:false, error: e.message, details:{code, data, errors}}` through the
outer `catch`, and a completed body surfaces as `{success:true, tweetId,
tweetUrl}`; in particular a `null` article or one missing a title yields the
structured failure, never a raised error. -/
theorem claim_C7 (article? : Option Article) (validate : Str → ValidationResult)
    (upload : Str → Nat → Except JsError Str) (tweetApi : Except JsError Str) :
    ((∃ id n, postToXBody article? validate upload tweetApi = (.ok id, n) ∧
        postToX article? validate upload tweetApi = (.success id (twitterStatusUrl id), n)) ∨
      (∃ e n, postToXBody article? validate upload tweetApi = (.error e, n) ∧
        postToX article? validate upload tweetApi =
          (.failure e.message e.code e.dataJson e.errorsJson, n))) ∧
    postToX none validate upload tweetApi =
      (.failure (str "No article provided") none none none, 0) := by
  constructor
  · match h : postToXBody article? validate upload tweetApi with
    | (.ok id, n) => exact Or.inl ⟨id, n, rfl, by simp [postToX, h]⟩
    | (.error e, n) => exact Or.inr ⟨e, n, rfl, by simp [postToX, h]⟩
  · rfl

/-- A transient-classified upload failure (`type: 'request'`, `ETIMEDOUT`
message). -/
def errTimeoutEx : JsError :=
  ⟨str "ETIMEDOUT: socket timed out", none, none, some (str "request"), none, none⟩

/-- An upload oracle that fails transiently on the first attempt and would
succeed on the second. -/
def uploadRetrySeq : Str → Nat → Except JsError Str :=
  fun _ n => if n = 0 then .error errTimeoutEx else .ok (str "m1")

/-- A complete article with a cached validated image. -/
def artEx : Article :=
  ⟨some (str "T"), some (str "Body words."), none, some (str "http://a/i.jpg"), none, none,
    some ⟨[0xFF, 0xD8, 0xFF], 3, none⟩⟩

/-- C4 counterexample: a failure classified as transient on the first upload
attempt is not retried — `postToX` makes exactly 1 upload attempt and returns
the rewritten network-error failure, even though the second attempt would
have succeeded; so the media-upload phase is not retried up to 3 attempts on
transient failures. -/
theorem claim_C4_counterexample :
    isTransientUpload errTimeoutEx = true ∧
    uploadRetrySeq (str "image/jpeg") 1 = .ok (str "m1") ∧
    postToX (some artEx) valAlwaysBad uploadRetrySeq (.ok (str "t1")) =
      (.failure (str "Network error during image upload. Please try again.") none none none, 1) := by
  refine ⟨by decide, rfl, ?_⟩
  have hnot : ¬ (280 < (createTweetText artEx).length) := by
    have := createTweetText_length_le artEx
    omega
  have hTitle : hasValidTitle artEx = true := by decide
  have hOr : jsOr artEx.urlToImage artEx.image = some (str "http://a/i.jpg") := by decide
  have hDl : downloadImageBuffer valAlwaysBad (str "http://a/i.jpg") artEx.validatedImage =
      .ok [0xFF, 0xD8, 0xFF] := rfl
  have hUp : uploadRetrySeq (detectMime [0xFF, 0xD8, 0xFF]) 0 = .error errTimeoutEx := rfl
  have hTrans : isTransientUpload errTimeoutEx = true := by decide
  have hu1 : ¬ (str "http://a/i.jpg" = []) := by decide
  have hu2 : (str "http").isPrefixOf (str "http://a/i.jpg") = true := by decide
  simp [postToX, postToXBody, hTitle, hOr, hnot, hDl, hUp, hTrans, jsErrorMsg, hu1, hu2]

/-- C4 (amended): the media-upload phase of `postToX` is attempted at most
once per run, for every input and every failure classification; a
transient-looking failure (`type === 'request'`, `ECONNRESET`/`ETIMEDOUT`)
only has its error message rewritten before the single attempt's failure is
surfaced — no class of failure triggers a retry of the upload.  (The
3-attempt loop in the older `postToX` variant of `src/unnamed/part_006`
retries the tweet-creation call, not the media upload, and does so for every
failure class.) -/
theorem claim_C4_amended (article? : Option Article) (validate : Str → ValidationResult)
    (upload : Str → Nat → Except JsError Str) (tweetApi : Except JsError Str) :
    (postToX article? validate upload tweetApi).2 ≤ 1 := by
  rw [postToX_attempts_eq]
  exact postToXBody_attempts_le article? validate upload tweetApi
